import Mathlib

/-!
# Verification of the Go-Minio HTTP facade (src/main.go)

Shallow embedding of the HTTP handlers of `src/main.go`:

* each Go handler becomes a Lean function from a `Request` (plus oracles
  standing for the external MinIO client and the multipart parser of the
  Go standard library) to a `Response` together with the ordered list of
  backend calls the handler issued;
* the long-lived `/watch` handler becomes a function from the finite
  observed sequence of channel wake-ups to the ordered list of SSE frames
  it writes (each written frame is immediately followed by a `Flush` in
  the Go code, so the frame list is exactly the flushed output).

External collaborators (the minio-go client, `encoding/json`,
`net/http`'s multipart parser) are modelled as oracle parameters; where a
claim additionally needs the backend semantics promised by the spec's
storage-backend port, a `SpecBackend` instance modelled from the spec
supplies them.
-/

namespace GoMinio

/-- HTTP status constants, named after the `net/http` constants used by
`src/main.go`. -/
def StatusOK : Nat := 200

def StatusCreated : Nat := 201

def StatusBadRequest : Nat := 400

def StatusNotFound : Nat := 404

def StatusMethodNotAllowed : Nat := 405

def StatusRequestEntityTooLarge : Nat := 413

def StatusInternalServerError : Nat := 500

/-- One file part of a multipart form, as returned by Go's
`r.FormFile("file")`: the declared filename (`header.Filename`), the
declared size (`header.Size`) and the `Content-Type` header of the part. -/
structure FilePart where
  filename : String
  size : Nat
  contentType : String
  deriving Repr, DecidableEq

/-- Outcome of `r.ParseMultipartForm`: the parsed form exposes the result
of the later `r.FormFile("file")` lookup — `some` the file part named
`file`, or `none` when `FormFile` returns an error (no such field). -/
structure ParsedForm where
  filePart : Option FilePart
  deriving Repr, DecidableEq

/-- An inbound HTTP request as the handlers of `src/main.go` observe it.

`bodySize` is the total size in bytes of the request body (the multipart
payload).  `parse` is the outcome of Go's `r.ParseMultipartForm(10 << 20)`
(`none` = the call returned an error).  The two fields are independent:
in the Go standard library the `10 << 20` argument of `ParseMultipartForm`
is `maxMemory`, the threshold above which *file* parts are spilled to
temporary files on disk — it is not a size cap, and parsing a payload
whose file part exceeds 10 MiB succeeds (the bytes go to disk).  Parse
success is therefore not determined by `bodySize`. -/
structure Request where
  method : String
  path : String
  bodySize : Nat
  parse : Option ParsedForm
  deriving Repr, DecidableEq

/-- An HTTP response: status code and body text.  Go's `http.Error`
appends a newline to the message; bodies below reproduce that. -/
structure Response where
  status : Nat
  body : String
  deriving Repr, DecidableEq

/-- One call made to the MinIO backend client, recorded in program order. -/
inductive BackendCall where
  | put (bucket objectName contentType : String) (size : Nat)
  | removeObject (bucket objectName : String)
  | listObjects (bucket : String)
  | presignedGetObject (bucket objectName : String) (expirySeconds : Nat)
  | listenBucketNotification (bucket : String)
  deriving Repr, DecidableEq

/-- Go's `strings.TrimPrefix(s, pre)`: returns `s` without the leading
`pre`, or `s` unchanged if `s` does not start with `pre`. -/
def trimPref (s pre : String) : String :=
  if pre.data.isPrefixOf s.data then String.mk (s.data.drop pre.data.length) else s

/-- `http.Error(w, msg, code)`: plain-text error response; Go appends a
newline to the message. -/
def httpError (msg : String) (code : Nat) : Response :=
  { status := code, body := msg ++ "\n" }

/-- `processAndUploadFile` of `src/main.go`.  `putErr objectName
contentType size` is the error result of
`minioClient.PutObject(..., objectName, file, header.Size, ...{ContentType:
contentType})` (`none` = success).  Returns the response together with the
backend calls made. -/
def processAndUploadFile (putErr : String → String → Nat → Option String)
    (bucketName : String) (r : Request) (objectName : String) :
    Response × List BackendCall :=
  match r.parse with
  | none => (httpError "Could not parse multipart form" StatusBadRequest, [])
  | some form =>
    match form.filePart with
    | none => (httpError "Could not retrieve file from form-data" StatusBadRequest, [])
    | some header =>
      match putErr (if objectName = "" then header.filename else objectName)
          header.contentType header.size with
      | some _ =>
          (httpError "Failed to upload file" StatusInternalServerError,
           [BackendCall.put bucketName
             (if objectName = "" then header.filename else objectName)
             header.contentType header.size])
      | none =>
          ({ status := StatusCreated,
             body := "Successfully processed '"
               ++ (if objectName = "" then header.filename else objectName)
               ++ "' in bucket '" ++ bucketName ++ "'.\n" },
           [BackendCall.put bucketName
             (if objectName = "" then header.filename else objectName)
             header.contentType header.size])

/-- `uploadFileHandler` of `src/main.go`: POST only, then
`processAndUploadFile` with an empty explicit object name. -/
def uploadFileHandler (putErr : String → String → Nat → Option String)
    (bucketName : String) (r : Request) : Response × List BackendCall :=
  if r.method ≠ "POST" then
    (httpError "Method not allowed" StatusMethodNotAllowed, [])
  else
    processAndUploadFile putErr bucketName r ""

/-- `modifyFileHandler` of `src/main.go`: PUT only, object name taken from
the URL path after `/modify/`, empty name rejected. -/
def modifyFileHandler (putErr : String → String → Nat → Option String)
    (bucketName : String) (r : Request) : Response × List BackendCall :=
  if r.method ≠ "PUT" then
    (httpError "Method not allowed" StatusMethodNotAllowed, [])
  else
    if trimPref r.path "/modify/" = "" then
      (httpError "Object name is required in the URL path (e.g., /modify/myfile.png)"
        StatusBadRequest, [])
    else
      processAndUploadFile putErr bucketName r (trimPref r.path "/modify/")

/-- `deleteFileHandler` of `src/main.go`: DELETE only, object name from
the URL path after `/delete/`, empty name rejected; `removeErr
objectName` is the error result of `minioClient.RemoveObject` (`none` =
success).  The success path never calls `WriteHeader`, so Go responds
with the implicit 200. -/
def deleteFileHandler (removeErr : String → Option String)
    (bucketName : String) (r : Request) : Response × List BackendCall :=
  if r.method ≠ "DELETE" then
    (httpError "Method not allowed" StatusMethodNotAllowed, [])
  else
    if trimPref r.path "/delete/" = "" then
      (httpError "Object name is required" StatusBadRequest, [])
    else
      match removeErr (trimPref r.path "/delete/") with
      | some _ =>
          (httpError "Failed to delete file" StatusInternalServerError,
           [BackendCall.removeObject bucketName (trimPref r.path "/delete/")])
      | none =>
          ({ status := StatusOK,
             body := "Successfully deleted '" ++ trimPref r.path "/delete/"
               ++ "' from bucket '" ++ bucketName ++ "'.\n" },
           [BackendCall.removeObject bucketName (trimPref r.path "/delete/")])

/-- One item received from the `minioClient.ListObjects` channel: an
object key, or an error carried in the item's `Err` field. -/
structure ObjectInfo where
  key : String
  err : Option String
  deriving Repr, DecidableEq

/-- The `for object := range objectCh` loop of `listFilesHandler`: drains
the channel in order, aborts at the first item whose `Err` is set
(`none` = the whole enumeration failed, partial results discarded),
otherwise collects the keys in delivery order. -/
def collectKeys : List ObjectInfo → Option (List String)
  | [] => some []
  | o :: rest =>
    match o.err with
    | some _ => none
    | none => (collectKeys rest).map (fun ks => o.key :: ks)

/-- Go's `json.NewEncoder(w).Encode(fileList)` applied to the `[]string`
slice built by `listFilesHandler`, for key strings that need no JSON
escaping (every key these theorems touch).  The slice is declared `var
fileList []string` and only ever grown by `append`, so it is the nil
slice exactly when no key was collected — and `encoding/json` serializes
a nil slice as `null`, not `[]`.  `Encode` appends a newline. -/
def goEncodeKeyList (keys : List String) : String :=
  if keys.isEmpty then "null\n"
  else
    "[" ++ String.intercalate "," (keys.map (fun k => "\"" ++ k ++ "\"")) ++ "]\n"

/-- `listFilesHandler` of `src/main.go`: GET only; `listing` is the full
contents of the `ListObjects` channel in delivery order. -/
def listFilesHandler (listing : List ObjectInfo) (bucketName : String)
    (r : Request) : Response × List BackendCall :=
  if r.method ≠ "GET" then
    (httpError "Method not allowed" StatusMethodNotAllowed, [])
  else
    match collectKeys listing with
    | none =>
        (httpError "Failed to list files" StatusInternalServerError,
         [BackendCall.listObjects bucketName])
    | some keys =>
        ({ status := StatusOK, body := goEncodeKeyList keys },
         [BackendCall.listObjects bucketName])

/-- Body written by `getPresignedURLHandler` on success:
`json.NewEncoder(w).Encode(map[string]string{"url": url})`, for URL
strings that need no JSON escaping; `Encode` appends a newline. -/
def goEncodeURLObject (url : String) : String :=
  "\x7b\"url\":\"" ++ url ++ "\"\x7d\n"

/-- `getPresignedURLHandler` of `src/main.go`: GET only, object name from
the URL path after `/get-download-link/`, empty name rejected; `presign
objectName expirySeconds` is the result of
`minioClient.PresignedGetObject(..., objectName, expiry, nil)` with
`expiry = 5 * time.Minute` (300 seconds).  Any presign error is mapped
to 404; success yields 200 with the JSON `{"url": ...}` object. -/
def getPresignedURLHandler (presign : String → Nat → Except String String)
    (bucketName : String) (r : Request) : Response × List BackendCall :=
  if r.method ≠ "GET" then
    (httpError "Method not allowed" StatusMethodNotAllowed, [])
  else
    if trimPref r.path "/get-download-link/" = "" then
      (httpError
        "Object name is required in the URL path (e.g., /get-download-link/my-image.jpg)"
        StatusBadRequest, [])
    else
      match presign (trimPref r.path "/get-download-link/") (5 * 60) with
      | Except.error _ =>
          (httpError "File not found or access denied" StatusNotFound,
           [BackendCall.presignedGetObject bucketName
             (trimPref r.path "/get-download-link/") (5 * 60)])
      | Except.ok url =>
          ({ status := StatusOK, body := goEncodeURLObject url },
           [BackendCall.presignedGetObject bucketName
             (trimPref r.path "/get-download-link/") (5 * 60)])

/-- One record of a bucket notification, as in minio-go's
`notification.Event`: an event-type tag and the affected object key. -/
structure NotificationEvent where
  eventName : String
  key : String
  deriving Repr, DecidableEq

/-- One item received from the `ListenBucketNotification` channel:
a record set and the item's `Err` field. -/
structure NotificationInfo where
  records : List NotificationEvent
  err : Option String
  deriving Repr, DecidableEq

/-- One wake-up of the `select` inside `watchBucketHandler`: either a
notification arrived on the subscription channel, or the client's
request context was cancelled (`r.Context().Done()`). -/
inductive WakeEvent where
  | notif (n : NotificationInfo)
  | ctxDone
  deriving Repr, DecidableEq

/-- The SSE comment frame `": connection established\n\n"` written (and
flushed) before the event loop starts. -/
def sseCommentFrame : String := ": connection established\n\n"

/-- An SSE data frame: `fmt.Fprintf(w, "data: %s\n\n", jsonData)`. -/
def sseDataFrame (jsonData : String) : String := "data: " ++ jsonData ++ "\n\n"

/-- An SSE error frame:
`fmt.Fprintf(w, "event: error\ndata: %v\n\n", notification.Err)`. -/
def sseErrorFrame (errText : String) : String :=
  "event: error\ndata: " ++ errText ++ "\n\n"

/-- The `for { select { ... } }` loop of `watchBucketHandler`, run over
the finite observed sequence of wake-ups.  `marshal` is
`json.Marshal(notification.Records)` (`none` = the call returned an
error, in which case the Go code logs and `continue`s).  Every written
frame is immediately followed by `flusher.Flush()` in the Go code, so
the returned list is exactly the sequence of flushed frames, in write
order:

* a notification with `Err` set yields one error frame and terminates
  the loop (`return`);
* a notification without error yields one data frame holding the JSON
  serialization of its record set (or no frame if `marshal` errs);
* context cancellation terminates the loop silently. -/
def watchLoop (marshal : List NotificationEvent → Option String) :
    List WakeEvent → List String
  | [] => []
  | WakeEvent.notif n :: rest =>
    match n.err with
    | some e => [sseErrorFrame e]
    | none =>
      match marshal n.records with
      | none => watchLoop marshal rest
      | some jsonData => sseDataFrame jsonData :: watchLoop marshal rest
  | WakeEvent.ctxDone :: _ => []

/-- Result of a `/watch` session: the HTTP status committed with the
first write, the ordered list of flushed SSE frames, and the backend
calls made. -/
structure WatchOutput where
  status : Nat
  frames : List String
  calls : List BackendCall
  deriving Repr, DecidableEq

/-- `watchBucketHandler` of `src/main.go`.  Note that unlike every other
handler it performs no `r.Method` check: the `method` of `r` is ignored.
`flusherOk` is the `w.(http.Flusher)` type assertion; `wakes` is the
observed sequence of `select` wake-ups.  On the streaming path the first
body write commits the implicit 200 status, the comment frame is flushed
first, and one backend subscription (`ListenBucketNotification`) is
opened. -/
def watchBucketHandler (flusherOk : Bool)
    (marshal : List NotificationEvent → Option String)
    (bucketName : String) (r : Request) (wakes : List WakeEvent) : WatchOutput :=
  if !flusherOk then
    { status := StatusInternalServerError
      frames := ["Streaming unsupported!\n"]
      calls := [] }
  else
    { status := StatusOK
      frames := sseCommentFrame :: watchLoop marshal wakes
      calls := [BackendCall.listenBucketNotification bucketName] }

/-- Modelled from the spec: the storage-backend port of §2 — the
minio-go client's behaviour is not part of `src/`, so the port's
promised semantics are taken from the spec.  A backend holds the set of
object keys present in the one bucket in scope and an abstract signing
function.  Per §4.1, `remove` reports success even when the key is
absent; per §2, `presignGet(key, ttl)` yields a URL exactly when the key
is present and `NotFound` otherwise; `list` enumerates all keys without
error. -/
structure SpecBackend where
  objects : List String
  urlOf : String → String

/-- Modelled from the spec: backend `remove(key)` — deletes the key if
present and reports success (`none`) in every case, including a missing
key (§4.1: "a missing object is still reported as success by the
backend layer"). -/
def SpecBackend.removeObject (b : SpecBackend) (k : String) :
    SpecBackend × Option String :=
  ({ b with objects := b.objects.filter (fun x => x ≠ k) }, none)

/-- Modelled from the spec: backend `list()` — yields every present key,
none carrying an error. -/
def SpecBackend.listObjects (b : SpecBackend) : List ObjectInfo :=
  b.objects.map (fun k => { key := k, err := none })

/-- Modelled from the spec: backend `presignGet(key, ttl) -> URL|NotFound`
(§2) — a URL for a present key, an error for an absent one. -/
def SpecBackend.presignGet (b : SpecBackend) (k : String) (_ttl : Nat) :
    Except String String :=
  if k ∈ b.objects then Except.ok (b.urlOf k) else Except.error "NotFound"

/-! ## Helper lemmas -/

theorem processAndUploadFile_parse_none (putErr : String → String → Nat → Option String)
    (bucketName : String) (r : Request) (objectName : String) (hp : r.parse = none) :
    processAndUploadFile putErr bucketName r objectName =
      (httpError "Could not parse multipart form" StatusBadRequest, []) := by
  simp [processAndUploadFile, hp]

theorem processAndUploadFile_no_file (putErr : String → String → Nat → Option String)
    (bucketName : String) (r : Request) (objectName : String) (form : ParsedForm)
    (hp : r.parse = some form) (hf : form.filePart = none) :
    processAndUploadFile putErr bucketName r objectName =
      (httpError "Could not retrieve file from form-data" StatusBadRequest, []) := by
  simp [processAndUploadFile, hp, hf]

theorem processAndUploadFile_calls (putErr : String → String → Nat → Option String)
    (bucketName : String) (r : Request) (objectName : String) (form : ParsedForm)
    (header : FilePart) (hp : r.parse = some form) (hf : form.filePart = some header) :
    (processAndUploadFile putErr bucketName r objectName).2 =
      [BackendCall.put bucketName (if objectName = "" then header.filename else objectName)
        header.contentType header.size] := by
  simp only [processAndUploadFile, hp, hf]
  cases putErr (if objectName = "" then header.filename else objectName)
      header.contentType header.size <;> rfl

theorem processAndUploadFile_status (putErr : String → String → Nat → Option String)
    (bucketName : String) (r : Request) (objectName : String) :
    (processAndUploadFile putErr bucketName r objectName).1.status = StatusBadRequest ∨
    (processAndUploadFile putErr bucketName r objectName).1.status = StatusInternalServerError ∨
    (processAndUploadFile putErr bucketName r objectName).1.status = StatusCreated := by
  cases hp : r.parse with
  | none => simp [processAndUploadFile, hp, httpError]
  | some form =>
    cases hf : form.filePart with
    | none => simp [processAndUploadFile, hp, hf, httpError]
    | some header =>
      simp only [processAndUploadFile, hp, hf]
      cases putErr (if objectName = "" then header.filename else objectName)
          header.contentType header.size <;> simp [httpError]

theorem processAndUploadFile_client_error_no_calls
    (putErr : String → String → Nat → Option String)
    (bucketName : String) (r : Request) (objectName : String)
    (h : (processAndUploadFile putErr bucketName r objectName).1.status = StatusBadRequest) :
    (processAndUploadFile putErr bucketName r objectName).2 = [] := by
  cases hp : r.parse with
  | none => simp [processAndUploadFile, hp]
  | some form =>
    cases hf : form.filePart with
    | none => simp [processAndUploadFile, hp, hf]
    | some header =>
      exfalso
      simp only [processAndUploadFile, hp, hf] at h
      cases hput : putErr (if objectName = "" then header.filename else objectName)
          header.contentType header.size <;>
        simp [hput, httpError, StatusBadRequest, StatusInternalServerError,
          StatusCreated] at h

theorem collectKeys_no_err (keys : List String) :
    collectKeys (keys.map (fun k => { key := k, err := none })) = some keys := by
  induction keys with
  | nil => rfl
  | cons k rest ih => simp [collectKeys, ih]

/-! ## Concrete fixtures for witnesses and counterexamples -/

/-- A put oracle whose calls all succeed. -/
def putOk : String → String → Nat → Option String := fun _ _ _ => none

/-- An 11 MiB file part (11 · 1024 · 1024 = 11534336 bytes). -/
def bigFilePart : FilePart :=
  { filename := "big.bin", size := 11534336, contentType := "application/octet-stream" }

/-- A `/upload` request whose multipart payload is 11 MiB; Go's
`ParseMultipartForm(10 << 20)` parses it successfully (the file part is
spilled to a temporary file), hence `parse` is `some`. -/
def bigUploadReq : Request :=
  { method := "POST", path := "/upload", bodySize := 11534336,
    parse := some { filePart := some bigFilePart } }

/-- A well-formed `GET /list` request. -/
def listReq : Request :=
  { method := "GET", path := "/list", bodySize := 0, parse := none }

/-- A `POST` request aimed at `/watch` (the wrong verb per the spec's
endpoint table, which lists `GET /watch`). -/
def watchPostReq : Request :=
  { method := "POST", path := "/watch", bodySize := 0, parse := none }

/-- File part of the concrete `/modify/` fixture: its declared filename
differs from the path key. -/
def draftFilePart : FilePart :=
  { filename := "local-draft.pdf", size := 42, contentType := "application/pdf" }

/-- A well-formed `PUT /modify/report.pdf` request carrying
`draftFilePart`. -/
def modifyReq : Request :=
  { method := "PUT", path := "/modify/report.pdf", bodySize := 42,
    parse := some { filePart := some draftFilePart } }

/-- A file part whose declared filename is empty. -/
def emptyNamePart : FilePart :=
  { filename := "", size := 5, contentType := "text/plain" }

/-- A `POST /upload` request whose `file` part declares an empty
filename. -/
def emptyNameReq : Request :=
  { method := "POST", path := "/upload", bodySize := 5,
    parse := some { filePart := some emptyNamePart } }

/-! ## C1 — payload size cap -/

/-- C1 counterexample.  The claim says every Create/Overwrite whose
multipart payload exceeds 10 MiB (10485760 bytes) fails with 413
PayloadTooLarge before any backend call.  The 11 MiB upload request
`bigUploadReq` refutes it: the handler answers 201 Created, not 413, and
issues a backend put. -/
theorem upload_oversize_accepted :
    10485760 < bigUploadReq.bodySize ∧
    (uploadFileHandler putOk "testbucket" bigUploadReq).1.status = StatusCreated ∧
    (uploadFileHandler putOk "testbucket" bigUploadReq).1.status ≠
      StatusRequestEntityTooLarge ∧
    (uploadFileHandler putOk "testbucket" bigUploadReq).2 =
      [BackendCall.put "testbucket" "big.bin" "application/octet-stream" 11534336] := by
  refine ⟨by decide, rfl, by decide, rfl⟩

/-- C1 amended: no payload-size cap exists and no 413 is ever produced —
the `10 << 20` argument of `ParseMultipartForm` is only the in-memory
threshold of the parser.  A Create or Overwrite request of any size
whose form parses and carries a `file` field proceeds to the backend
put; the only pre-backend parse failure is reported as 400 BadRequest. -/
theorem upload_modify_no_payload_cap (putErr : String → String → Nat → Option String)
    (bucketName : String) (r : Request) :
    (uploadFileHandler putErr bucketName r).1.status ≠ StatusRequestEntityTooLarge ∧
    (modifyFileHandler putErr bucketName r).1.status ≠ StatusRequestEntityTooLarge ∧
    (∀ form header, r.method = "POST" → r.parse = some form →
      form.filePart = some header →
      (uploadFileHandler putErr bucketName r).2 =
        [BackendCall.put bucketName header.filename header.contentType header.size]) ∧
    (r.parse = none →
      (processAndUploadFile putErr bucketName r "").1.status = StatusBadRequest ∧
      (processAndUploadFile putErr bucketName r "").2 = []) := by
  refine ⟨?_, ?_, ?_, ?_⟩
  · unfold uploadFileHandler
    split
    · decide
    · rcases processAndUploadFile_status putErr bucketName r "" with h | h | h <;>
        simp [h, StatusBadRequest, StatusInternalServerError, StatusCreated,
          StatusRequestEntityTooLarge]
  · unfold modifyFileHandler
    split
    · decide
    · split
      · decide
      · rcases processAndUploadFile_status putErr bucketName r
            (trimPref r.path "/modify/") with h | h | h <;>
          simp [h, StatusBadRequest, StatusInternalServerError, StatusCreated,
            StatusRequestEntityTooLarge]
  · intro form header hm hp hf
    have := processAndUploadFile_calls putErr bucketName r "" form header hp hf
    simp only [uploadFileHandler, hm]
    simpa using this
  · intro hp
    rw [processAndUploadFile_parse_none putErr bucketName r "" hp]
    exact ⟨rfl, rfl⟩

/-- C1 amended, witness: the 11 MiB request exercises the backend-put
conjunct at a concrete input. -/
theorem upload_modify_no_payload_cap_witness :
    (uploadFileHandler putOk "testbucket" bigUploadReq).2 =
      [BackendCall.put "testbucket" "big.bin" "application/octet-stream" 11534336] := by
  have h := (upload_modify_no_payload_cap putOk "testbucket" bigUploadReq).2.2.1
    { filePart := some bigFilePart } bigFilePart rfl rfl rfl
  simpa [bigFilePart] using h

/-! ## C3 — listing an empty bucket -/

/-- C3 counterexample.  The claim says `List()` on an empty bucket
returns 200 with the empty JSON array `[]`.  The status is indeed 200,
but the body is `null` (plus the encoder's newline): `fileList` is the
nil slice when no object was enumerated, and `encoding/json` serializes
a nil slice as `null`, not `[]`. -/
theorem list_empty_bucket_returns_null :
    (listFilesHandler [] "testbucket" listReq).1.status = StatusOK ∧
    (listFilesHandler [] "testbucket" listReq).1.body = "null\n" ∧
    (listFilesHandler [] "testbucket" listReq).1.body ≠ "[]" := by
  refine ⟨rfl, rfl, by decide⟩

/-- C3 amended: when the bucket contains no objects, `List()` returns
200 with body `null` followed by a newline (the JSON serialization of
the nil slice), not the empty array `[]`. -/
theorem list_empty_bucket (bucketName : String) (r : Request) (hm : r.method = "GET") :
    listFilesHandler [] bucketName r =
      ({ status := StatusOK, body := "null\n" },
       [BackendCall.listObjects bucketName]) := by
  simp [listFilesHandler, hm, collectKeys, goEncodeKeyList]

/-- C3 amended, witness: the concrete `GET /list` request against an
empty listing. -/
theorem list_empty_bucket_witness :
    listFilesHandler [] "testbucket" listReq =
      ({ status := StatusOK, body := "null\n" },
       [BackendCall.listObjects "testbucket"]) :=
  list_empty_bucket "testbucket" listReq rfl

/-! ## C5 — wrong-method rejection -/

/-- C5 counterexample.  The claim says every endpoint, `/watch`
included, answers 405 to a wrong-method request without performing any
operation.  `watchBucketHandler` never inspects `r.Method`: a `POST`
to `/watch` is served as a normal SSE session (status 200) and opens a
backend subscription. -/
theorem watch_accepts_any_method :
    (watchBucketHandler true (fun _ => none) "testbucket" watchPostReq []).status =
      StatusOK ∧
    (watchBucketHandler true (fun _ => none) "testbucket" watchPostReq []).status ≠
      StatusMethodNotAllowed ∧
    (watchBucketHandler true (fun _ => none) "testbucket" watchPostReq []).calls =
      [BackendCall.listenBucketNotification "testbucket"] := by
  refine ⟨rfl, by decide, rfl⟩

/-- C5 amended: the five non-streaming endpoints (upload, modify,
delete, list, get-download-link) reject a wrong-method request with 405
MethodNotAllowed and make no backend call; `/watch` performs no method
check at all (see the counterexample). -/
theorem wrong_method_rejected (putErr : String → String → Nat → Option String)
    (removeErr : String → Option String) (presign : String → Nat → Except String String)
    (listing : List ObjectInfo) (bucketName : String) (r : Request) :
    (r.method ≠ "POST" → uploadFileHandler putErr bucketName r =
      (httpError "Method not allowed" StatusMethodNotAllowed, [])) ∧
    (r.method ≠ "PUT" → modifyFileHandler putErr bucketName r =
      (httpError "Method not allowed" StatusMethodNotAllowed, [])) ∧
    (r.method ≠ "DELETE" → deleteFileHandler removeErr bucketName r =
      (httpError "Method not allowed" StatusMethodNotAllowed, [])) ∧
    (r.method ≠ "GET" → listFilesHandler listing bucketName r =
      (httpError "Method not allowed" StatusMethodNotAllowed, [])) ∧
    (r.method ≠ "GET" → getPresignedURLHandler presign bucketName r =
      (httpError "Method not allowed" StatusMethodNotAllowed, [])) := by
  refine ⟨fun h => ?_, fun h => ?_, fun h => ?_, fun h => ?_, fun h => ?_⟩
  · simp [uploadFileHandler, h]
  · simp [modifyFileHandler, h]
  · simp [deleteFileHandler, h]
  · simp [listFilesHandler, h]
  · simp [getPresignedURLHandler, h]

/-- C5 amended, witness: a `PATCH` to `/upload` is rejected with 405 and
no backend call. -/
theorem wrong_method_rejected_witness :
    uploadFileHandler putOk "testbucket"
      { method := "PATCH", path := "/upload", bodySize := 0, parse := none } =
      (httpError "Method not allowed" StatusMethodNotAllowed, []) :=
  (wrong_method_rejected putOk (fun _ => none) (fun _ _ => Except.error "e") []
    "testbucket" _).1 (by decide)

/-! ## C2 — presign failures map uniformly to NotFound -/

/-- C2: for a well-formed `GET /get-download-link/{k}` request with
non-empty `k`, every presign failure — whatever its cause — is answered
404 NotFound, and a presign success is answered 200 with the single-URL
JSON body.  In particular, against the spec's backend port
(`SpecBackend`), an absent key yields 404 and a present key yields 200
with its URL. -/
theorem presign_failure_is_notFound (presign : String → Nat → Except String String)
    (bucketName : String) (r : Request) (k : String)
    (hm : r.method = "GET") (hk : trimPref r.path "/get-download-link/" = k)
    (hne : k ≠ "") :
    (∀ e, presign k (5 * 60) = Except.error e →
      (getPresignedURLHandler presign bucketName r).1 =
        httpError "File not found or access denied" StatusNotFound) ∧
    (∀ url, presign k (5 * 60) = Except.ok url →
      (getPresignedURLHandler presign bucketName r).1 =
        { status := StatusOK, body := goEncodeURLObject url }) ∧
    (∀ b : SpecBackend, k ∉ b.objects →
      (getPresignedURLHandler b.presignGet bucketName r).1.status = StatusNotFound) ∧
    (∀ b : SpecBackend, k ∈ b.objects →
      (getPresignedURLHandler b.presignGet bucketName r).1 =
        { status := StatusOK, body := goEncodeURLObject (b.urlOf k) }) := by
  refine ⟨fun e he => ?_, fun url hu => ?_, fun b hb => ?_, fun b hb => ?_⟩
  · simp [getPresignedURLHandler, hm, hk, hne, he]
  · simp [getPresignedURLHandler, hm, hk, hne, hu]
  · simp [getPresignedURLHandler, hm, hk, hne, SpecBackend.presignGet, hb, httpError]
  · simp [getPresignedURLHandler, hm, hk, hne, SpecBackend.presignGet, hb]

/-- C2, witness: a concrete backend holding `report.pdf`; presigning the
present key answers 200 with its URL. -/
theorem presign_failure_is_notFound_witness :
    (getPresignedURLHandler
      (SpecBackend.presignGet
        { objects := ["report.pdf"], urlOf := fun k => "https://signed/" ++ k })
      "testbucket"
      { method := "GET", path := "/get-download-link/report.pdf", bodySize := 0,
        parse := none }).1 =
      { status := StatusOK, body := goEncodeURLObject "https://signed/report.pdf" } :=
  (presign_failure_is_notFound
    (SpecBackend.presignGet
      { objects := ["report.pdf"], urlOf := fun k => "https://signed/" ++ k })
    "testbucket"
    { method := "GET", path := "/get-download-link/report.pdf", bodySize := 0,
      parse := none }
    "report.pdf" rfl (by decide) (by decide)).2.2.2
    { objects := ["report.pdf"], urlOf := fun k => "https://signed/" ++ k }
    (by decide)

/-! ## C6 — delete of an absent key -/

/-- C6: against the spec's backend port (whose `remove` reports success
even for a missing key), a well-formed `DELETE /delete/{k}` for a key
`k` absent from the bucket answers 200 (never 404), and the listing of
the resulting bucket state never contains `k`. -/
theorem delete_absent_key_succeeds (b : SpecBackend) (bucketName : String)
    (r : Request) (k : String) (hm : r.method = "DELETE")
    (hk : trimPref r.path "/delete/" = k) (hne : k ≠ "") (habs : k ∉ b.objects) :
    (deleteFileHandler (fun x => (b.removeObject x).2) bucketName r).1.status =
      StatusOK ∧
    (deleteFileHandler (fun x => (b.removeObject x).2) bucketName r).1.status ≠
      StatusNotFound ∧
    (∀ keys, collectKeys (b.removeObject k).1.listObjects = some keys → k ∉ keys) := by
  refine ⟨?_, ?_, fun keys hkeys => ?_⟩
  · simp [deleteFileHandler, hm, hk, hne, SpecBackend.removeObject]
  · simp [deleteFileHandler, hm, hk, hne, SpecBackend.removeObject, StatusOK,
      StatusNotFound]
  · rw [SpecBackend.listObjects, collectKeys_no_err] at hkeys
    cases hkeys
    simp [SpecBackend.removeObject]

/-- C6, witness: deleting `report.pdf`, absent from a bucket holding
only `other.txt`, answers 200 and the remaining keys avoid it. -/
theorem delete_absent_key_succeeds_witness :
    (deleteFileHandler
      (fun x => (SpecBackend.removeObject
        { objects := ["other.txt"], urlOf := fun _ => "" } x).2)
      "testbucket"
      { method := "DELETE", path := "/delete/report.pdf", bodySize := 0,
        parse := none }).1.status = StatusOK :=
  (delete_absent_key_succeeds { objects := ["other.txt"], urlOf := fun _ => "" }
    "testbucket" _ "report.pdf" rfl (by decide) (by decide) (by decide)).1

/-! ## C4 — one flushed data frame per error-free notification -/

/-- C4: in a Watch Session, a sequence of error-free notifications whose
record sets serialize successfully (as `json.Marshal` always does on
minio-go's `Records` value) yields exactly one flushed SSE `data:` frame
per notification, each carrying the JSON serialization of its record
set, in backend delivery order with none dropped — stated both for the
event loop and through the whole handler (whose frame list opens with
the initial comment frame). -/
theorem watch_one_frame_per_notification
    (marshal : List NotificationEvent → Option String)
    (jfun : List NotificationEvent → String)
    (recordSets : List (List NotificationEvent)) (flusherOk : Bool)
    (bucketName : String) (r : Request)
    (hm : ∀ rs ∈ recordSets, marshal rs = some (jfun rs)) :
    watchLoop marshal
        (recordSets.map (fun rs => WakeEvent.notif { records := rs, err := none })) =
      recordSets.map (fun rs => sseDataFrame (jfun rs)) ∧
    (flusherOk = true →
      (watchBucketHandler flusherOk marshal bucketName r
          (recordSets.map (fun rs => WakeEvent.notif { records := rs, err := none }))).frames =
        sseCommentFrame :: recordSets.map (fun rs => sseDataFrame (jfun rs))) := by
  have hloop : ∀ sets : List (List NotificationEvent),
      (∀ rs ∈ sets, marshal rs = some (jfun rs)) →
      watchLoop marshal
          (sets.map (fun rs => WakeEvent.notif { records := rs, err := none })) =
        sets.map (fun rs => sseDataFrame (jfun rs)) := by
    intro sets hsets
    induction sets with
    | nil => rfl
    | cons rs rest ih =>
      simp only [List.map_cons, watchLoop, hsets rs (List.mem_cons_self rs rest)]
      exact congrArg _ (ih fun x hx => hsets x (List.mem_cons_of_mem rs hx))
  refine ⟨hloop recordSets hm, fun hf => ?_⟩
  subst hf
  simp [watchBucketHandler, hloop recordSets hm]

/-- C4, witness: two concrete notifications with a concrete serializer
produce exactly the two data frames in order. -/
theorem watch_one_frame_per_notification_witness :
    watchLoop (fun rs => some (String.intercalate "," (rs.map (fun e => e.key))))
        ([[{ eventName := "s3:ObjectCreated:Put", key := "report.pdf" }],
          [{ eventName := "s3:ObjectRemoved:Delete", key := "report.pdf" }]].map
          (fun rs => WakeEvent.notif { records := rs, err := none })) =
      [sseDataFrame "report.pdf", sseDataFrame "report.pdf"] :=
  (watch_one_frame_per_notification
    (fun rs => some (String.intercalate "," (rs.map (fun e => e.key))))
    (fun rs => String.intercalate "," (rs.map (fun e => e.key)))
    [[{ eventName := "s3:ObjectCreated:Put", key := "report.pdf" }],
     [{ eventName := "s3:ObjectRemoved:Delete", key := "report.pdf" }]]
    true "testbucket" listReq (fun _ _ => rfl)).1

/-! ## C8 — subscription error ends the session with one error frame -/

/-- C8: when a wake-up delivers a notification whose `Err` is set, the
session writes exactly one flushed SSE `event: error` frame carrying the
error description and terminates: whatever wake-ups would have followed,
no further frame is emitted. -/
theorem watch_error_frame_terminates
    (marshal : List NotificationEvent → Option String) (e : String)
    (records : List NotificationEvent) (rest : List WakeEvent)
    (bucketName : String) (r : Request) :
    watchLoop marshal
        (WakeEvent.notif { records := records, err := some e } :: rest) =
      [sseErrorFrame e] ∧
    (watchBucketHandler true marshal bucketName r
        (WakeEvent.notif { records := records, err := some e } :: rest)).frames =
      [sseCommentFrame, sseErrorFrame e] := by
  exact ⟨rfl, rfl⟩

/-! ## C7 — target-key resolution -/

/-- C7: for every upload whose form parses and carries a `file` field,
the backend put uses the explicit key verbatim when one is supplied
(non-empty), and the payload's declared filename otherwise; `/modify/`
passes the non-empty key taken from its request path, and `/upload`
passes the empty explicit key, so its put key is the declared
filename. -/
theorem put_key_resolution (putErr : String → String → Nat → Option String)
    (bucketName : String) (r : Request) (objectName : String) (form : ParsedForm)
    (header : FilePart) (hp : r.parse = some form) (hf : form.filePart = some header) :
    (processAndUploadFile putErr bucketName r objectName).2 =
      [BackendCall.put bucketName
        (if objectName = "" then header.filename else objectName)
        header.contentType header.size] ∧
    (r.method = "PUT" → trimPref r.path "/modify/" ≠ "" →
      (modifyFileHandler putErr bucketName r).2 =
        [BackendCall.put bucketName (trimPref r.path "/modify/")
          header.contentType header.size]) ∧
    (r.method = "POST" →
      (uploadFileHandler putErr bucketName r).2 =
        [BackendCall.put bucketName header.filename header.contentType header.size]) := by
  refine ⟨processAndUploadFile_calls putErr bucketName r objectName form header hp hf,
    fun hm hne => ?_, fun hm => ?_⟩
  · simp only [modifyFileHandler, hm]
    rw [if_neg (by simp), if_neg hne]
    rw [processAndUploadFile_calls putErr bucketName r _ form header hp hf,
      if_neg hne]
  · simp only [uploadFileHandler, hm]
    rw [if_neg (by simp)]
    rw [processAndUploadFile_calls putErr bucketName r "" form header hp hf,
      if_pos rfl]

/-- C7, witness: a `PUT /modify/report.pdf` carrying a file part whose
declared filename differs puts under the path key `report.pdf`. -/
theorem put_key_resolution_witness :
    (modifyFileHandler putOk "testbucket" modifyReq).2 =
      [BackendCall.put "testbucket" "report.pdf" "application/pdf" 42] := by
  have h := (put_key_resolution putOk "testbucket" modifyReq ""
    { filePart := some draftFilePart } draftFilePart rfl rfl).2.1 rfl (by decide)
  simpa [show trimPref modifyReq.path "/modify/" = "report.pdf" by decide,
    draftFilePart] using h

/-! ## C9 — client-error rejections precede backend calls -/

/-- C9: whenever Create, Overwrite or Delete answers a client error
(400 BadRequest — empty key, unparsable form, missing `file` field — or
405 MethodNotAllowed), it has made no backend call, so backend state is
unchanged by the rejected request. -/
theorem client_error_means_no_backend_call
    (putErr : String → String → Nat → Option String)
    (removeErr : String → Option String) (bucketName : String) (r : Request) :
    ((uploadFileHandler putErr bucketName r).1.status = StatusBadRequest ∨
      (uploadFileHandler putErr bucketName r).1.status = StatusMethodNotAllowed →
      (uploadFileHandler putErr bucketName r).2 = []) ∧
    ((modifyFileHandler putErr bucketName r).1.status = StatusBadRequest ∨
      (modifyFileHandler putErr bucketName r).1.status = StatusMethodNotAllowed →
      (modifyFileHandler putErr bucketName r).2 = []) ∧
    ((deleteFileHandler removeErr bucketName r).1.status = StatusBadRequest ∨
      (deleteFileHandler removeErr bucketName r).1.status = StatusMethodNotAllowed →
      (deleteFileHandler removeErr bucketName r).2 = []) := by
  refine ⟨fun h => ?_, fun h => ?_, fun h => ?_⟩
  · by_cases hm : r.method ≠ "POST"
    · simp [uploadFileHandler, hm]
    · simp only [uploadFileHandler, if_neg hm] at h ⊢
      refine processAndUploadFile_client_error_no_calls putErr bucketName r "" ?_
      rcases h with h | h
      · exact h
      · rcases processAndUploadFile_status putErr bucketName r "" with h' | h' | h' <;>
          simp [h', StatusBadRequest, StatusMethodNotAllowed,
            StatusInternalServerError, StatusCreated] at h ⊢
  · by_cases hm : r.method ≠ "PUT"
    · simp [modifyFileHandler, hm]
    · by_cases hk : trimPref r.path "/modify/" = ""
      · simp [modifyFileHandler, hm, hk]
      · simp only [modifyFileHandler, if_neg hm, if_neg hk] at h ⊢
        refine processAndUploadFile_client_error_no_calls putErr bucketName r _ ?_
        rcases h with h | h
        · exact h
        · rcases processAndUploadFile_status putErr bucketName r
              (trimPref r.path "/modify/") with h' | h' | h' <;>
            simp [h', StatusBadRequest, StatusMethodNotAllowed,
              StatusInternalServerError, StatusCreated] at h ⊢
  · by_cases hm : r.method ≠ "DELETE"
    · simp [deleteFileHandler, hm]
    · by_cases hk : trimPref r.path "/delete/" = ""
      · simp [deleteFileHandler, hm, hk]
      · exfalso
        simp only [deleteFileHandler, if_neg hm, if_neg hk] at h
        cases hrem : removeErr (trimPref r.path "/delete/") <;>
          rcases h with h | h <;>
          simp [hrem, httpError, StatusOK, StatusBadRequest, StatusMethodNotAllowed,
            StatusInternalServerError] at h

/-- C9, witness: an `/upload` request whose multipart form fails to
parse is answered 400 with no backend call. -/
theorem client_error_means_no_backend_call_witness :
    (uploadFileHandler putOk "testbucket"
      { method := "POST", path := "/upload", bodySize := 7, parse := none }).2 = [] :=
  (client_error_means_no_backend_call putOk (fun _ => none) "testbucket"
    { method := "POST", path := "/upload", bodySize := 7, parse := none }).1
    (Or.inl (by decide))

/-! ## C10 — empty declared filename is not rejected -/

/-- C10: a `POST /upload` whose `file` part declares an empty filename
is not rejected with 400 BadRequest; the handler proceeds to a backend
put whose object key is the empty string. -/
theorem upload_empty_filename_proceeds
    (putErr : String → String → Nat → Option String) (bucketName : String)
    (r : Request) (form : ParsedForm) (header : FilePart)
    (hm : r.method = "POST") (hp : r.parse = some form)
    (hf : form.filePart = some header) (hfn : header.filename = "") :
    (uploadFileHandler putErr bucketName r).1.status ≠ StatusBadRequest ∧
    (uploadFileHandler putErr bucketName r).2 =
      [BackendCall.put bucketName "" header.contentType header.size] := by
  have hup : uploadFileHandler putErr bucketName r =
      processAndUploadFile putErr bucketName r "" := by
    simp [uploadFileHandler, hm]
  rw [hup]
  constructor
  · simp only [processAndUploadFile, hp, hf, if_true]
    cases hput : putErr header.filename header.contentType header.size <;>
      simp [hput, httpError, StatusBadRequest, StatusInternalServerError,
        StatusCreated]
  · rw [processAndUploadFile_calls putErr bucketName r "" form header hp hf,
      if_pos rfl, hfn]

/-- C10, witness: an upload whose file part has filename `""` puts under
the empty key and is not answered 400. -/
theorem upload_empty_filename_proceeds_witness :
    (uploadFileHandler putOk "testbucket" emptyNameReq).2 =
      [BackendCall.put "testbucket" "" "text/plain" 5] := by
  have h := (upload_empty_filename_proceeds putOk "testbucket" emptyNameReq
    { filePart := some emptyNamePart } emptyNamePart rfl rfl rfl rfl).2
  simpa [emptyNamePart] using h

end GoMinio
